import Mathlib

/-!
Shallow embedding of the `AttentionTracker` class of `@noesis/core`
(`src/attention/AttentionTracker.ts`).  Numbers that the source holds in
JavaScript floats are modelled as exact rationals; every call to
`Math.random()` is threaded explicitly as an input in `[0, 1)`; wall-clock
reads (`Date.now()`) are threaded as a natural-number input; DOM and media
resources (interval handle, webcam stream, video element) are opaque
`Option` handles, and a target element is represented by its bounding
client rect.
-/

namespace Noesis

/-- Tracking status of a sample (`status: 'inactive' | 'tracking'`). -/
inductive Status where
  | inactive
  | tracking
deriving DecidableEq

/-- A 2-D gaze coordinate in pixels. -/
structure Point where
  x : ℚ
  y : ℚ
deriving DecidableEq

/-- The bounding client rect of the target element
(`getBoundingClientRect`): `right` and `bottom` are derived. -/
structure Rect where
  left : ℚ
  top : ℚ
  width : ℚ
  height : ℚ
deriving DecidableEq

def Rect.right (r : Rect) : ℚ := r.left + r.width

def Rect.bottom (r : Rect) : ℚ := r.top + r.height

/-- The viewport (`window.innerWidth` / `window.innerHeight`). -/
structure Viewport where
  innerWidth : ℚ
  innerHeight : ℚ
deriving DecidableEq

/-- The sample emitted on every tick (`AttentionData` in `types.ts`). -/
structure AttentionData where
  score : ℚ
  focusStability : ℚ
  cognitiveLoad : ℚ
  gazePoint : Point
  timestamp : ℕ
  status : Status
deriving DecidableEq

/-- The merged option record held by the tracker.  `webcamOptions` (raw
capture constraints, consumed only by `getUserMedia`) is elided: capture
acquisition is modelled by an explicit success flag instead.  The `webcam`
flag is optional in the source (`webcam?: boolean`), hence `Option Bool`
with `none` for `undefined`. -/
structure AttentionTrackingOptions where
  trackingInterval : ℕ
  webcam : Option Bool
  attentionThreshold : ℚ
  historySize : ℕ
deriving DecidableEq

/-- A `Partial<AttentionTrackingOptions>` override: absent fields are
`none`. -/
structure PartialOptions where
  trackingInterval : Option ℕ := none
  webcam : Option Bool := none
  attentionThreshold : Option ℚ := none
  historySize : Option ℕ := none
deriving DecidableEq

/-- JavaScript `a || d` for an optional number: `0` is falsy, so both an
absent and a zero value fall back to the default. -/
def orDefaultNat (v : Option ℕ) (d : ℕ) : ℕ :=
  match v with
  | none => d
  | some x => if x = 0 then d else x

/-- JavaScript `a || d` for an optional rational (again, `0` is falsy). -/
def orDefaultRat (v : Option ℚ) (d : ℚ) : ℚ :=
  match v with
  | none => d
  | some x => if x = 0 then d else x

/-- The constructor's option normalisation.  Note that the constructed
record contains exactly the four listed keys, so `webcam` is left
`undefined` at construction time. -/
def mkOptions (o : PartialOptions) : AttentionTrackingOptions :=
  { trackingInterval := orDefaultNat o.trackingInterval 500
    webcam := none
    attentionThreshold := orDefaultRat o.attentionThreshold 0.7
    historySize := orDefaultNat o.historySize 20 }

/-- Object spread `{ ...this.options, ...options }` in `startTracking`:
each override field, when present, replaces the base field. -/
def mergeOptions (base : AttentionTrackingOptions) (o : PartialOptions) :
    AttentionTrackingOptions :=
  { trackingInterval := o.trackingInterval.getD base.trackingInterval
    webcam := match o.webcam with
      | some b => some b
      | none => base.webcam
    attentionThreshold := o.attentionThreshold.getD base.attentionThreshold
    historySize := o.historySize.getD base.historySize }

/-- The random draws consumed by a single tick, each in `[0, 1)`:
`rLook` decides the look-at-target branch, `rGx`/`rGy` build the gaze
coordinates, `rScore` perturbs the score step and `rLoad` the cognitive
load. -/
structure TickRand where
  rLook : ℚ
  rGx : ℚ
  rGy : ℚ
  rScore : ℚ
  rLoad : ℚ
deriving DecidableEq

/-- The private mutable state of one `AttentionTracker` instance.  The
field `trackingInterval` is the interval handle (`number | null`), distinct
from `options.trackingInterval`; `webcamStream` and `videoElement` are
opaque resource handles; `targetElement` is the bound target's rect. -/
structure TrackerState where
  options : AttentionTrackingOptions
  isTracking : Bool
  webcamStream : Option Unit
  videoElement : Option Unit
  trackingInterval : Option ℕ
  targetElement : Option Rect
  attentionData : AttentionData
  attentionHistory : List ℚ
deriving DecidableEq

/-- The `attentionData` field initialiser: the pre-first-tick sample. -/
def initialAttentionData (t0 : ℕ) : AttentionData :=
  { score := 0
    focusStability := 0
    cognitiveLoad := 0.3
    gazePoint := { x := 0, y := 0 }
    timestamp := t0
    status := Status.inactive }

/-- A freshly constructed tracker (`new AttentionTracker(options)` at
clock time `t0`). -/
def mkTrackerState (o : PartialOptions) (t0 : ℕ) : TrackerState :=
  { options := mkOptions o
    isTracking := false
    webcamStream := none
    videoElement := none
    trackingInterval := none
    targetElement := none
    attentionData := initialAttentionData t0
    attentionHistory := [] }

/-- `getCurrentData()` returns (a copy of) the current sample. -/
def getCurrentData (s : TrackerState) : AttentionData :=
  s.attentionData

/-- `simulateGazeTracking()`: with no bound target, the viewport center;
otherwise, when the `Math.random() < 0.7` draw succeeds, the target
rect's center plus a `Math.random() * 100 - 50` offset on each axis, and
otherwise a uniform draw over the viewport. -/
def simulateGazeTracking (target : Option Rect) (vp : Viewport)
    (r : TickRand) : Point :=
  match target with
  | none => { x := vp.innerWidth / 2, y := vp.innerHeight / 2 }
  | some rect =>
    let centerX := rect.left + rect.width / 2
    let centerY := rect.top + rect.height / 2
    if r.rLook < 0.7 then
      { x := centerX + (r.rGx * 100 - 50), y := centerY + (r.rGy * 100 - 50) }
    else
      { x := r.rGx * vp.innerWidth, y := r.rGy * vp.innerHeight }

/-- `isGazeOnTarget()`: true iff a target is bound and the gaze point lies
in its bounding box (all four comparisons inclusive). -/
def isGazeOnTarget (target : Option Rect) (gazePoint : Point) : Bool :=
  match target with
  | none => false
  | some rect =>
    decide (rect.left ≤ gazePoint.x) && decide (gazePoint.x ≤ rect.right) &&
    decide (rect.top ≤ gazePoint.y) && decide (gazePoint.y ≤ rect.bottom)

/-- The score step of `updateAttentionData`: attentive ticks do
`Math.min(1, prev + 0.05 + rand * 0.02)`, inattentive ticks do
`Math.max(0, prev - 0.08 - rand * 0.03)`. -/
def updateScore (isUserAttentive : Bool) (previousScore rand : ℚ) : ℚ :=
  if isUserAttentive then
    min 1 (previousScore + 0.05 + rand * 0.02)
  else
    max 0 (previousScore - 0.08 - rand * 0.03)

/-- `calculateStabilityScore()`: `1` for a history of fewer than two
samples, else `1 - variance * 5` clamped to `[0, 1]`, where the variance
is the mean squared deviation from the mean of the whole history. -/
def calculateStabilityScore (attentionHistory : List ℚ) : ℚ :=
  if attentionHistory.length < 2 then 1
  else
    let mean := attentionHistory.sum / (attentionHistory.length : ℚ)
    let variance :=
      (attentionHistory.map (fun val => (val - mean) ^ 2)).sum /
        (attentionHistory.length : ℚ)
    max 0 (min 1 (1 - variance * 5))

/-- One tick of the loop (`updateAttentionData()`), at clock reading
`now` with random draws `r`: synthesize a gaze point, test attentiveness,
step the score, push it onto the bounded history (evicting the oldest
entry when over capacity), derive stability and cognitive load, and store
the new sample. -/
def updateAttentionData (s : TrackerState) (vp : Viewport) (now : ℕ)
    (r : TickRand) : TrackerState :=
  let previousScore := s.attentionData.score
  let simulatedGazeCoordinates := simulateGazeTracking s.targetElement vp r
  let isUserAttentive := isGazeOnTarget s.targetElement simulatedGazeCoordinates
  let newScore := updateScore isUserAttentive previousScore r.rScore
  let pushed := s.attentionHistory ++ [newScore]
  let newHistory :=
    if s.options.historySize < pushed.length then pushed.tail else pushed
  let stabilityScore := calculateStabilityScore newHistory
  let cognitiveLoad := 0.3 + r.rLoad * 0.4
  { s with
    attentionHistory := newHistory
    attentionData :=
      { score := newScore
        focusStability := stabilityScore
        cognitiveLoad := cognitiveLoad
        gazePoint := simulatedGazeCoordinates
        timestamp := now
        status := Status.tracking } }

/-- `stopTracking()`: a no-op when not tracking; otherwise clears the
interval handle (guarded by a truthiness test in the source), releases the
webcam stream, drops the video element, and resets the flag and status.
The source does not touch `targetElement` here. -/
def stopTracking (s : TrackerState) : TrackerState :=
  if s.isTracking = false then s
  else
    { s with
      trackingInterval :=
        if s.trackingInterval.isSome then none else s.trackingInterval
      webcamStream :=
        if s.webcamStream.isSome then none else s.webcamStream
      videoElement := none
      isTracking := false
      attentionData := { s.attentionData with status := Status.inactive } }

/-- `startTracking(targetElement, options)`: an early successful return
when already tracking; otherwise merge the option overrides, bind the
target, acquire the webcam unless `webcam === false` (acquisition failure
— `captureOk = false` — propagates as a failed start that leaves the flag
and status untouched), then set the flag, mark the status and schedule the
tick interval. -/
def startTracking (s : TrackerState) (targetElement : Option Rect)
    (opts : PartialOptions) (captureOk : Bool) : TrackerState × Bool :=
  if s.isTracking then (s, true)
  else
    let merged := mergeOptions s.options opts
    let s1 := { s with options := merged, targetElement := targetElement }
    let wantsWebcam : Bool := merged.webcam ≠ some false
    if wantsWebcam ∧ captureOk = false then (s1, false)
    else
      ({ s1 with
          webcamStream := if wantsWebcam then some () else none
          videoElement := if wantsWebcam then some () else none
          isTracking := true
          attentionData := { s1.attentionData with status := Status.tracking }
          trackingInterval := some 1 }, true)

/-- `notifyCallbacks()`: invoke every registered callback in registration
order with the current sample; each call is wrapped in `try`/`catch`, so a
raised error is recorded for that callback and iteration continues.  The
returned list holds each callback's own outcome. -/
def notifyCallbacks {ε : Type} (changeCallbacks : List (AttentionData → Except ε Unit))
    (d : AttentionData) : List (Except ε Unit) :=
  match changeCallbacks with
  | [] => []
  | callback :: rest =>
    let outcome :=
      match callback d with
      | Except.ok u => Except.ok u
      | Except.error e => Except.error e
    outcome :: notifyCallbacks rest d

/-- Run a list of ticks, each with its own clock reading and draws, and
collect the sample emitted by each tick. -/
def runTicks (vp : Viewport) (s : TrackerState) :
    List (ℕ × TickRand) → List AttentionData
  | [] => []
  | (now, r) :: rest =>
    let s1 := updateAttentionData s vp now r
    s1.attentionData :: runTicks vp s1 rest

/-- Population variance of a list of scores, in the textbook
`E[X^2] - (E[X])^2` form (for the empty list both quotients are `0` by
rational division-by-zero convention). -/
def popVariance (h : List ℚ) : ℚ :=
  (h.map (fun v => v ^ 2)).sum / (h.length : ℚ) - (h.sum / (h.length : ℚ)) ^ 2

/-- Clamp a rational to `[0, 1]`. -/
def clamp01 (x : ℚ) : ℚ := max 0 (min 1 x)


/-- The gaze point synthesized by a tick of the loop. -/
def tickGaze (s : TrackerState) (vp : Viewport) (r : TickRand) : Point :=
  simulateGazeTracking s.targetElement vp r

/-- The attentiveness decision of a tick. -/
def tickAttentive (s : TrackerState) (vp : Viewport) (r : TickRand) : Bool :=
  isGazeOnTarget s.targetElement (tickGaze s vp r)

/-- The score produced by a tick. -/
def tickScore (s : TrackerState) (vp : Viewport) (r : TickRand) : ℚ :=
  updateScore (tickAttentive s vp r) s.attentionData.score r.rScore

/-- The history produced by a tick (push, then evict the head when over
capacity). -/
def tickHistory (s : TrackerState) (vp : Viewport) (r : TickRand) : List ℚ :=
  let pushed := s.attentionHistory ++ [tickScore s vp r]
  if s.options.historySize < pushed.length then pushed.tail else pushed

/-- The gaze-synthesis rule exactly as the specification words it, for
refinement comparison with `simulateGazeTracking`: the near-center branch
is taken only when the draw is below the configured probability `p` while
the previous tick was attentive. -/
def gazeSpecClaim (prevAttentive : Bool) (p : ℚ) (target : Option Rect)
    (vp : Viewport) (r : TickRand) : Point :=
  match target with
  | none => { x := vp.innerWidth / 2, y := vp.innerHeight / 2 }
  | some rect =>
    let centerX := rect.left + rect.width / 2
    let centerY := rect.top + rect.height / 2
    if prevAttentive = true ∧ r.rLook < p then
      { x := centerX + (r.rGx * 100 - 50), y := centerY + (r.rGy * 100 - 50) }
    else
      { x := r.rGx * vp.innerWidth, y := r.rGy * vp.innerHeight }

/-- A 100 by 100 target rect at the origin, for concrete instances. -/
def rect0 : Rect := { left := 0, top := 0, width := 100, height := 100 }

/-- A 1000 by 1000 viewport, for concrete instances. -/
def vp0 : Viewport := { innerWidth := 1000, innerHeight := 1000 }

/-- A concrete draw vector: the look draw succeeds, the coordinate draws
are `0.9`, the score and load draws are `0`. -/
def rGaze : TickRand :=
  { rLook := 0, rGx := 0.9, rGy := 0.9, rScore := 0, rLoad := 0 }

/-- A tracker that is actively tracking `rect0` with default options. -/
def trackerBusy : TrackerState :=
  { options := mkOptions {}
    isTracking := true
    webcamStream := some ()
    videoElement := some ()
    trackingInterval := some 1
    targetElement := some rect0
    attentionData := { initialAttentionData 0 with status := Status.tracking }
    attentionHistory := [] }

/-- A tracking tracker whose history is exactly at its capacity of 2. -/
def trackerFull : TrackerState :=
  { trackerBusy with
    options := mkOptions { historySize := some 2 }
    attentionHistory := [0, 0.5] }

/-- An observer that raises on every invocation. -/
def badObserver : AttentionData → Except ℕ Unit := fun _ => Except.error 7

/-- An observer that succeeds on every invocation. -/
def goodObserver : AttentionData → Except ℕ Unit := fun _ => Except.ok ()

/-- A concrete sample to deliver to observers. -/
def sample0 : AttentionData := initialAttentionData 0

/-- Two concrete ticks with strictly increasing clock readings. -/
def ticks0 : List (ℕ × TickRand) := [(5, rGaze), (9, rGaze)]

/-! ## Helper lemmas -/

theorem list_sum_sq_dev (h : List ℚ) (m : ℚ) :
    (h.map (fun v => (v - m) ^ 2)).sum =
      (h.map (fun v => v ^ 2)).sum - 2 * m * h.sum + (h.length : ℚ) * m ^ 2 := by
  induction h with
  | nil => simp
  | cons a t ih =>
    simp [ih]
    ring

theorem variance_eq_popVariance (h : List ℚ) (hn : h.length ≠ 0) :
    (h.map (fun v => (v - h.sum / (h.length : ℚ)) ^ 2)).sum / (h.length : ℚ) =
      popVariance h := by
  have hQ : (h.length : ℚ) ≠ 0 := Nat.cast_ne_zero.mpr hn
  rw [list_sum_sq_dev, popVariance]
  field_simp
  ring

theorem sum_of_const (h : List ℚ) (x : ℚ) (hx : ∀ y ∈ h, y = x) :
    h.sum = (h.length : ℚ) * x := by
  induction h with
  | nil => simp
  | cons a t ih =>
    have ha : a = x := hx a (List.mem_cons_self a t)
    have ht : ∀ y ∈ t, y = x := fun y hy => hx y (List.mem_cons_of_mem a hy)
    simp [ha, ih ht]
    ring

theorem updateAttentionData_eq (s : TrackerState) (vp : Viewport) (now : ℕ)
    (r : TickRand) :
    updateAttentionData s vp now r =
      { s with
        attentionHistory := tickHistory s vp r
        attentionData :=
          { score := tickScore s vp r
            focusStability := calculateStabilityScore (tickHistory s vp r)
            cognitiveLoad := 0.3 + r.rLoad * 0.4
            gazePoint := tickGaze s vp r
            timestamp := now
            status := Status.tracking } } := rfl

theorem updateScore_bounds (b : Bool) (prev rand : ℚ)
    (h0 : 0 ≤ prev) (h1 : prev ≤ 1) (hr : 0 ≤ rand) :
    0 ≤ updateScore b prev rand ∧ updateScore b prev rand ≤ 1 := by
  have h2 : 0 ≤ rand * 0.02 := by positivity
  have h3 : 0 ≤ rand * 0.03 := by positivity
  cases b with
  | true =>
    refine ⟨le_min (by norm_num) (by linarith), min_le_left 1 _⟩
  | false =>
    exact ⟨le_max_left 0 _, max_le (by norm_num) (by linarith)⟩

theorem calculateStabilityScore_bounds (h : List ℚ) :
    0 ≤ calculateStabilityScore h ∧ calculateStabilityScore h ≤ 1 := by
  rw [calculateStabilityScore]
  split
  · norm_num
  · exact ⟨le_max_left 0 _, max_le (by norm_num) (min_le_left 1 _)⟩

theorem runTicks_timestamps (vp : Viewport) (s : TrackerState)
    (ticks : List (ℕ × TickRand)) :
    (runTicks vp s ticks).map AttentionData.timestamp = ticks.map Prod.fst := by
  induction ticks generalizing s with
  | nil => rfl
  | cons tk rest ih =>
    cases tk with
    | mk now r =>
      simp only [runTicks, List.map_cons, ih]
      rw [updateAttentionData_eq]

/-! ## Claim theorems -/

/-- C1: on every tick the emitted focus stability equals
`clamp01 (1 - 5 * v)` with `v` the population variance of the scores in
the history window, is `1` whenever the window holds fewer than two
samples, and is exactly `1` for any window of constant scores. -/
theorem stability_clamped_variance_spec (h : List ℚ) :
    (h.length < 2 → calculateStabilityScore h = 1) ∧
    (2 ≤ h.length → calculateStabilityScore h = clamp01 (1 - 5 * popVariance h)) ∧
    (∀ x : ℚ, (∀ y ∈ h, y = x) → calculateStabilityScore h = 1) := by
  refine ⟨fun hlt => ?_, fun hge => ?_, fun x hx => ?_⟩
  · simp [calculateStabilityScore, hlt]
  · have hlt : ¬ h.length < 2 := by omega
    have hn : h.length ≠ 0 := by omega
    simp only [calculateStabilityScore, if_neg hlt, clamp01]
    rw [variance_eq_popVariance h hn, mul_comm (popVariance h) 5]
  · by_cases hlt : h.length < 2
    · simp [calculateStabilityScore, hlt]
    · have hn : h.length ≠ 0 := by omega
      have hQ : (h.length : ℚ) ≠ 0 := Nat.cast_ne_zero.mpr hn
      have hmean : h.sum / (h.length : ℚ) = x := by
        rw [sum_of_const h x hx]
        field_simp
      have hzero : (h.map (fun v => (v - h.sum / (h.length : ℚ)) ^ 2)).sum = 0 := by
        have hall : ∀ z ∈ h.map (fun v => (v - h.sum / (h.length : ℚ)) ^ 2), z = 0 := by
          intro z hz
          rcases List.mem_map.mp hz with ⟨v, hv, rfl⟩
          rw [hmean, hx v hv]
          ring
        rw [sum_of_const _ 0 hall]
        ring
      simp only [calculateStabilityScore, if_neg hlt, hzero]
      norm_num

/-- C1 witness: a five-sample constant history at `0.5` yields stability
exactly `1`. -/
theorem stability_clamped_variance_witness :
    calculateStabilityScore [0.5, 0.5, 0.5, 0.5, 0.5] = 1 :=
  (stability_clamped_variance_spec [0.5, 0.5, 0.5, 0.5, 0.5]).2.2 0.5 (by simp)

/-- C2: on every tick with previous score in `[0, 1]` and score draw in
`[0, 1)`, an attentive tick emits `clamp01 (prev + 0.05 + u)` for some
`u ∈ [0, 0.02]` and an inattentive tick emits `clamp01 (prev - 0.08 - u)`
for some `u ∈ [0, 0.03]`. -/
theorem score_step_spec (s : TrackerState) (vp : Viewport) (now : ℕ) (r : TickRand)
    (h0 : 0 ≤ s.attentionData.score) (h1 : s.attentionData.score ≤ 1)
    (hr0 : 0 ≤ r.rScore) (hr1 : r.rScore < 1) :
    (tickAttentive s vp r = true →
      ∃ u : ℚ, 0 ≤ u ∧ u ≤ 0.02 ∧
        (updateAttentionData s vp now r).attentionData.score =
          clamp01 (s.attentionData.score + 0.05 + u)) ∧
    (tickAttentive s vp r = false →
      ∃ u : ℚ, 0 ≤ u ∧ u ≤ 0.03 ∧
        (updateAttentionData s vp now r).attentionData.score =
          clamp01 (s.attentionData.score - 0.08 - u)) := by
  rw [updateAttentionData_eq]
  constructor
  · intro ha
    refine ⟨r.rScore * 0.02, by positivity, ?_, ?_⟩
    · nlinarith
    · show tickScore s vp r = _
      rw [tickScore, ha, updateScore, if_pos rfl, clamp01]
      have hx : (0 : ℚ) ≤ s.attentionData.score + 0.05 + r.rScore * 0.02 := by
        nlinarith
      rw [max_eq_right (le_min (by norm_num) hx)]
  · intro ha
    refine ⟨r.rScore * 0.03, by positivity, ?_, ?_⟩
    · nlinarith
    · show tickScore s vp r = _
      rw [tickScore, ha, updateScore, if_neg (by simp), clamp01]
      have hx : s.attentionData.score - 0.08 - r.rScore * 0.03 ≤ 1 := by
        nlinarith
      rw [min_eq_right hx]

/-- C2 witness: a concrete attentive tick from score `0`. -/
theorem score_step_witness :
    tickAttentive trackerBusy vp0 rGaze = true ∧
    (∃ u : ℚ, 0 ≤ u ∧ u ≤ 0.02 ∧
      (updateAttentionData trackerBusy vp0 5 rGaze).attentionData.score =
        clamp01 (trackerBusy.attentionData.score + 0.05 + u)) := by
  have hatt : tickAttentive trackerBusy vp0 rGaze = true := by
    norm_num [tickAttentive, tickGaze, simulateGazeTracking, isGazeOnTarget,
      trackerBusy, rect0, vp0, rGaze, Rect.right, Rect.bottom]
  exact ⟨hatt,
    (score_step_spec trackerBusy vp0 5 rGaze
      (by norm_num [trackerBusy, initialAttentionData])
      (by norm_num [trackerBusy, initialAttentionData])
      (by norm_num [rGaze]) (by norm_num [rGaze])).1 hatt⟩

/-- C3 counterexample: with a bound target, an inattentive previous tick
and a look draw below `0.7`, the source still emits the near-center gaze
point, not a uniform viewport point as the claim's conditioned rule
requires. -/
theorem gaze_conditioned_counterexample :
    simulateGazeTracking (some rect0) vp0 rGaze ≠
      gazeSpecClaim false 0.7 (some rect0) vp0 rGaze := by
  norm_num [simulateGazeTracking, gazeSpecClaim, rect0, vp0, rGaze]

/-- C3 amended: the gaze rule coincides with the claim's rule with the
previous-attentiveness condition always treated as satisfied and the
probability fixed at the hardcoded constant `0.7`: the near-center branch
is taken whenever the look draw is below `0.7`, regardless of previous
attentiveness; otherwise the gaze point is uniform over the viewport, and
with no bound target it is the viewport center. -/
theorem gaze_unconditional_spec (target : Option Rect) (vp : Viewport)
    (r : TickRand) :
    simulateGazeTracking target vp r = gazeSpecClaim true 0.7 target vp r := by
  cases target <;> simp [simulateGazeTracking, gazeSpecClaim]

/-- C4: with previous score in `[0, 1]` and draws in `[0, 1)`, the emitted
score, focus stability and cognitive load all lie in `[0, 1]`. -/
theorem emitted_fields_bounded (s : TrackerState) (vp : Viewport) (now : ℕ)
    (r : TickRand)
    (h0 : 0 ≤ s.attentionData.score) (h1 : s.attentionData.score ≤ 1)
    (hs0 : 0 ≤ r.rScore) (hl0 : 0 ≤ r.rLoad) (hl1 : r.rLoad < 1) :
    (0 ≤ (updateAttentionData s vp now r).attentionData.score ∧
      (updateAttentionData s vp now r).attentionData.score ≤ 1) ∧
    (0 ≤ (updateAttentionData s vp now r).attentionData.focusStability ∧
      (updateAttentionData s vp now r).attentionData.focusStability ≤ 1) ∧
    (0 ≤ (updateAttentionData s vp now r).attentionData.cognitiveLoad ∧
      (updateAttentionData s vp now r).attentionData.cognitiveLoad ≤ 1) := by
  rw [updateAttentionData_eq]
  refine ⟨updateScore_bounds _ _ _ h0 h1 hs0, calculateStabilityScore_bounds _, ?_, ?_⟩
  · show (0 : ℚ) ≤ 0.3 + r.rLoad * 0.4
    nlinarith
  · show (0.3 : ℚ) + r.rLoad * 0.4 ≤ 1
    nlinarith

/-- C4 witness: the bounds at a concrete tick. -/
theorem emitted_fields_bounded_witness :
    (0 ≤ (updateAttentionData trackerBusy vp0 7 rGaze).attentionData.score ∧
      (updateAttentionData trackerBusy vp0 7 rGaze).attentionData.score ≤ 1) ∧
    (0 ≤ (updateAttentionData trackerBusy vp0 7 rGaze).attentionData.focusStability ∧
      (updateAttentionData trackerBusy vp0 7 rGaze).attentionData.focusStability ≤ 1) ∧
    (0 ≤ (updateAttentionData trackerBusy vp0 7 rGaze).attentionData.cognitiveLoad ∧
      (updateAttentionData trackerBusy vp0 7 rGaze).attentionData.cognitiveLoad ≤ 1) :=
  emitted_fields_bounded trackerBusy vp0 7 rGaze
    (by norm_num [trackerBusy, initialAttentionData])
    (by norm_num [trackerBusy, initialAttentionData])
    (by norm_num [rGaze]) (by norm_num [rGaze]) (by norm_num [rGaze])

/-- C5: a tick preserves the history-capacity bound; at capacity (at least
one entry) a tick appends the new score and evicts exactly the oldest
entry; and the default capacity is `20`. -/
theorem history_capacity_fifo (s : TrackerState) (vp : Viewport) (now : ℕ)
    (r : TickRand) :
    (s.attentionHistory.length ≤ s.options.historySize →
      (updateAttentionData s vp now r).attentionHistory.length ≤
        s.options.historySize) ∧
    (1 ≤ s.options.historySize →
      s.attentionHistory.length = s.options.historySize →
      (updateAttentionData s vp now r).attentionHistory =
        s.attentionHistory.tail ++
          [(updateAttentionData s vp now r).attentionData.score]) ∧
    (mkOptions {}).historySize = 20 := by
  rw [updateAttentionData_eq]
  refine ⟨?_, ?_, rfl⟩
  · intro hle
    show (tickHistory s vp r).length ≤ s.options.historySize
    rw [tickHistory]
    split
    · rw [List.length_tail, List.length_append, List.length_singleton]
      omega
    · rename_i hcond
      rw [List.length_append, List.length_singleton] at hcond ⊢
      omega
  · intro hN hlen
    show tickHistory s vp r = _
    rw [tickHistory]
    have hcond : s.options.historySize <
        (s.attentionHistory ++ [tickScore s vp r]).length := by
      simp [hlen]
    rw [if_pos hcond]
    cases hl : s.attentionHistory with
    | nil =>
      rw [hl] at hlen
      simp at hlen
      omega
    | cons a t =>
      simp

/-- C5 witness: a tick on a two-entry history at capacity two drops the
oldest entry and appends the new score. -/
theorem history_capacity_fifo_witness :
    (updateAttentionData trackerFull vp0 9 rGaze).attentionHistory =
      trackerFull.attentionHistory.tail ++
        [(updateAttentionData trackerFull vp0 9 rGaze).attentionData.score] :=
  (history_capacity_fifo trackerFull vp0 9 rGaze).2.1
    (by norm_num [trackerFull, trackerBusy, mkOptions, orDefaultNat]) rfl

/-- C6 counterexample: stopping a tracking instance bound to `rect0`
leaves the target-element binding in place, contradicting the claim that
`stop` clears it. -/
theorem stop_keeps_target_counterexample :
    trackerBusy.isTracking = true ∧
    (stopTracking trackerBusy).targetElement = some rect0 :=
  ⟨rfl, rfl⟩

/-- C6 amended: `stop` cancels the repeating tick, releases the capture
resource and the video element, sets the flag and status to inactive, and
is a no-op (hence idempotent) when not tracking — but it leaves any
target-element binding in place. -/
theorem stop_release_idempotent (s : TrackerState)
    (hs : s.isTracking = false → s.attentionData.status = Status.inactive) :
    (s.isTracking = true →
      (stopTracking s).trackingInterval = none ∧
      (stopTracking s).webcamStream = none ∧
      (stopTracking s).videoElement = none ∧
      (stopTracking s).targetElement = s.targetElement) ∧
    (stopTracking s).isTracking = false ∧
    (stopTracking s).attentionData.status = Status.inactive ∧
    (s.isTracking = false → stopTracking s = s) ∧
    stopTracking (stopTracking s) = stopTracking s := by
  cases ht : s.isTracking with
  | false =>
    have hnoop : stopTracking s = s := by rw [stopTracking, if_pos ht]
    refine ⟨fun h => absurd h (by simp), ?_, ?_, fun _ => hnoop, ?_⟩
    · rw [hnoop, ht]
    · rw [hnoop]
      exact hs ht
    · rw [hnoop, hnoop]
  | true =>
    have hstop : (stopTracking s).isTracking = false := by
      rw [stopTracking, if_neg (by rw [ht]; simp)]
    refine ⟨fun _ => ?_, hstop, ?_, fun h => absurd h (by simp), ?_⟩
    · rw [stopTracking, if_neg (by rw [ht]; simp)]
      refine ⟨?_, ?_, rfl, rfl⟩
      · cases h : s.trackingInterval <;> simp [h]
      · cases h : s.webcamStream <;> simp [h]
    · rw [stopTracking, if_neg (by rw [ht]; simp)]
    · rw [stopTracking]
      rw [if_pos hstop]

/-- C6 witness: stopping the concrete tracking instance leaves it
inactive. -/
theorem stop_release_idempotent_witness :
    (stopTracking trackerBusy).isTracking = false ∧
    (stopTracking trackerBusy).attentionData.status = Status.inactive :=
  ⟨(stop_release_idempotent trackerBusy (fun h => absurd h (by simp [trackerBusy]))).2.1,
   (stop_release_idempotent trackerBusy (fun h => absurd h (by simp [trackerBusy]))).2.2.1⟩

/-- C7: every registered observer is invoked, in registration order, with
the delivered sample; each slot of the outcome list is exactly that
observer's own outcome, so an observer that throws neither prevents later
observers from receiving the sample nor aborts the loop. -/
theorem notify_invokes_all_in_order {ε : Type}
    (cbs : List (AttentionData → Except ε Unit)) (d : AttentionData) :
    (notifyCallbacks cbs d).length = cbs.length ∧
    ∀ (i : ℕ) (dflt : Except ε Unit) (cbdflt : AttentionData → Except ε Unit),
      i < cbs.length →
      (notifyCallbacks cbs d).getD i dflt = (cbs.getD i cbdflt) d := by
  induction cbs with
  | nil =>
    refine ⟨rfl, ?_⟩
    intro i dflt cbdflt hi
    simp at hi
  | cons c rest ih =>
    have hstep : notifyCallbacks (c :: rest) d =
        (match c d with
         | Except.ok u => Except.ok u
         | Except.error e => Except.error e) :: notifyCallbacks rest d := rfl
    have houtcome : (match c d with
         | Except.ok u => Except.ok u
         | Except.error e => Except.error e) = c d := by
      cases c d <;> rfl
    rw [hstep, houtcome]
    refine ⟨by simp [ih.1], ?_⟩
    intro i dflt cbdflt hi
    cases i with
    | zero => rfl
    | succ j =>
      have hj : j < rest.length := by simpa using hi
      exact ih.2 j dflt cbdflt hj

/-- C7 witness: behind an always-throwing observer, a well-behaved
observer still receives the sample. -/
theorem notify_invokes_all_witness :
    (notifyCallbacks [badObserver, goodObserver] sample0).length = 2 ∧
    (notifyCallbacks [badObserver, goodObserver] sample0).getD 1 (Except.error 0) =
      Except.ok () :=
  ⟨(notify_invokes_all_in_order [badObserver, goodObserver] sample0).1,
   ((notify_invokes_all_in_order [badObserver, goodObserver] sample0).2 1
      (Except.error 0) (fun _ => Except.error 0) (by norm_num)).trans rfl⟩

/-- C8: calling `start` while already tracking returns success and leaves
the whole state unchanged: no option re-merge, no history reset, no new
tick schedule. -/
theorem start_noop_when_tracking (s : TrackerState) (t : Option Rect)
    (o : PartialOptions) (captureOk : Bool) (h : s.isTracking = true) :
    startTracking s t o captureOk = (s, true) := by
  simp [startTracking, h]

/-- C8 witness: the no-op on the concrete tracking instance. -/
theorem start_noop_when_tracking_witness :
    startTracking trackerBusy none {} true = (trackerBusy, true) :=
  start_noop_when_tracking trackerBusy none {} true rfl

/-- C9: while tracking, each emitted sample carries the clock reading of
its tick, so strictly increasing clock readings across ticks yield
strictly increasing sample timestamps. -/
theorem timestamps_strictly_increase (vp : Viewport) (s : TrackerState)
    (ticks : List (ℕ × TickRand))
    (h : List.Chain' (fun a b => a < b) (ticks.map Prod.fst)) :
    List.Chain' (fun a b => a < b)
      ((runTicks vp s ticks).map AttentionData.timestamp) := by
  rw [runTicks_timestamps]
  exact h

/-- C9 witness: two concrete ticks at clock readings 5 and 9. -/
theorem timestamps_strictly_increase_witness :
    List.Chain' (fun a b => a < b) (ticks0.map Prod.fst) ∧
    List.Chain' (fun a b => a < b)
      ((runTicks vp0 trackerBusy ticks0).map AttentionData.timestamp) :=
  ⟨by simp [ticks0], timestamps_strictly_increase vp0 trackerBusy ticks0 (by simp [ticks0])⟩

/-- C10: before the first tick, `getCurrentData` returns score `0`, focus
stability `0` (not the `1` that the stability rule yields on the empty
history), cognitive load `0.3`, gaze point `(0, 0)` and status
inactive. -/
theorem initial_sample_values (o : PartialOptions) (t0 : ℕ) :
    getCurrentData (mkTrackerState o t0) =
      { score := 0
        focusStability := 0
        cognitiveLoad := 0.3
        gazePoint := { x := 0, y := 0 }
        timestamp := t0
        status := Status.inactive } ∧
    (getCurrentData (mkTrackerState o t0)).focusStability ≠ 1 ∧
    calculateStabilityScore (mkTrackerState o t0).attentionHistory = 1 := by
  refine ⟨rfl, by norm_num [getCurrentData, mkTrackerState, initialAttentionData], ?_⟩
  norm_num [mkTrackerState, calculateStabilityScore]

end Noesis
